import Mathlib

/-!
Verification development for the ShowTrackAI local dev servers:
a shallow embedding in Lean 4 of the two Python programs
`start-test-server.py` (mock API server) and `serve-web.py`
(static web server), together with theorems about their behaviour.

Modelling conventions:
* HTTP responses are records of a status code, an ordered header list
  (in the order the handler queues them) and a body.
* The Python standard library pieces the programs call into are modelled
  explicitly where their behaviour matters (tuple unpacking, `int()`,
  `bytes.decode`, header lookup) and passed as parameters where only
  their result matters (`json.loads`, `json.dumps`, the base handler
  static-file machinery, the filesystem, clocks).
* Machine side effects (printing, binding a socket, `sys.exit`) are
  reified as outcome values.
-/

/-- JSON values, the result of `json.loads` and the payloads handed to
`json.dumps`.  Python float literals occurring in the mock payloads are
modelled as the rational numbers they denote in the source text. -/
inductive Json where
  | null : Json
  | bool (b : Bool) : Json
  | num (q : Rat) : Json
  | str (s : String) : Json
  | arr (elems : List Json) : Json
  | obj (fields : List (String × Json)) : Json

/-- The Python exceptions the embedded code can raise. -/
inductive PyExn where
  | typeError
  | valueError
  | unicodeDecodeError
  deriving DecidableEq, Repr

/-- Response bodies: literal text, a JSON document (serialised by
`json.dumps` on the wire), or an opaque static-file body produced by the
base handler. -/
inductive Body where
  | text (s : String) : Body
  | json (j : Json) : Body
  | fileData : Body

/-- An HTTP response as the handler assembles it: status line, the header
fields in the order they are sent, and the body written to `wfile`. -/
structure Response where
  status : Nat
  headers : List (String × String)
  body : Body

/-! ## Python standard-library behaviour used by the handlers -/

/-- Whitespace as stripped by Python `int(str)`. -/
def pyIsSpace (c : Char) : Bool :=
  c = ' ' ∨ c = '\t' ∨ c = '\n' ∨ c = '\r' ∨ c = '\x0b' ∨ c = '\x0c'

/-- Digit run accepted by Python `int(str)`: nonempty decimal digits with
single underscores allowed between digits.  `prevDigit` records whether
the previous character was a digit (so an underscore may follow). -/
def pyDigitsAux : List Char → Nat → Bool → Option Nat
  | [], acc, true => some acc
  | [], _, false => none
  | c :: cs, acc, prevDigit =>
    if c.isDigit then pyDigitsAux cs (acc * 10 + (c.toNat - 48)) true
    else if c = '_' ∧ prevDigit then pyDigitsAux cs acc false
    else none

def pyDigits (cs : List Char) : Option Nat :=
  pyDigitsAux cs 0 false

/-- Python `int(s)` on a string: strip whitespace, optional sign, decimal
digits with optional single underscores.  `none` models `ValueError`. -/
def pyInt (s : String) : Option Int :=
  let cs := (((s.toList.dropWhile pyIsSpace).reverse.dropWhile pyIsSpace)).reverse
  match cs with
  | '+' :: rest => (pyDigits rest).map Int.ofNat
  | '-' :: rest => (pyDigits rest).map (fun n => -(n : Int))
  | rest => (pyDigits rest).map Int.ofNat

/-- `int(self.headers[h])` where the header lookup yields `None` when the
field is absent: `int(None)` raises `TypeError`, a non-integer string
raises `ValueError`. -/
def pyIntOfHeader : Option String → Except PyExn Int
  | none => .error .typeError
  | some s =>
    match pyInt s with
    | some n => .ok n
    | none => .error .valueError

/-- Strict UTF-8 decoding of a byte list, as Python `bytes.decode`
with encoding `utf-8`: rejects stray continuation bytes, overlong forms,
surrogate code points and code points above `U+10FFFF`.  Fuel-indexed;
the wrapper supplies the list length as fuel. -/
def utf8DecodeAux : Nat → List Nat → Option (List Char)
  | _, [] => some []
  | 0, _ :: _ => none
  | fuel + 1, b0 :: bs =>
    if b0 < 0x80 then
      (utf8DecodeAux fuel bs).map (Char.ofNat b0 :: ·)
    else if b0 < 0xC2 then
      none
    else if b0 < 0xE0 then
      match bs with
      | b1 :: bs1 =>
        if 0x80 ≤ b1 ∧ b1 < 0xC0 then
          (utf8DecodeAux fuel bs1).map
            (Char.ofNat ((b0 - 0xC0) * 64 + (b1 - 0x80)) :: ·)
        else none
      | [] => none
    else if b0 < 0xF0 then
      match bs with
      | b1 :: b2 :: bs2 =>
        let lo1 : Nat := if b0 = 0xE0 then 0xA0 else 0x80
        let hi1 : Nat := if b0 = 0xED then 0xA0 else 0xC0
        if (lo1 ≤ b1 ∧ b1 < hi1) ∧ (0x80 ≤ b2 ∧ b2 < 0xC0) then
          (utf8DecodeAux fuel bs2).map
            (Char.ofNat ((b0 - 0xE0) * 4096 + (b1 - 0x80) * 64 + (b2 - 0x80)) :: ·)
        else none
      | _ => none
    else if b0 < 0xF5 then
      match bs with
      | b1 :: b2 :: b3 :: bs3 =>
        let lo1 : Nat := if b0 = 0xF0 then 0x90 else 0x80
        let hi1 : Nat := if b0 = 0xF4 then 0x90 else 0xC0
        if (lo1 ≤ b1 ∧ b1 < hi1) ∧ (0x80 ≤ b2 ∧ b2 < 0xC0) ∧ (0x80 ≤ b3 ∧ b3 < 0xC0) then
          (utf8DecodeAux fuel bs3).map
            (Char.ofNat ((b0 - 0xF0) * 262144 + (b1 - 0x80) * 4096 +
              (b2 - 0x80) * 64 + (b3 - 0x80)) :: ·)
        else none
      | _ => none
    else none

/-- `post_data.decode` with encoding `utf-8`: `none` models an uncaught
`UnicodeDecodeError`. -/
def pyDecodeUtf8 (bytes : List Nat) : Option String :=
  (utf8DecodeAux bytes.length bytes).map (fun cs => ⟨cs⟩)

/-- `self.rfile.read(n)`: reads the first `n` bytes of the request body
(the whole stream when `n` is negative). -/
def rfileRead (n : Int) (bodyStream : List Nat) : List Nat :=
  if n < 0 then bodyStream else bodyStream.take n.toNat

/-- Path component of `urllib.parse.urlparse` applied to an HTTP request
target (no scheme, no authority part): the fragment is split off at the
first hash character, then the query at the first question mark. -/
def urlparsePath (url : String) : String :=
  ⟨(url.toList.takeWhile (· ≠ '#')).takeWhile (· ≠ '?')⟩

/-! ## Mock API server: start-test-server.py -/

/-- The three CORS header fields added by
`GeolocationTestHandler.end_headers`. -/
def corsHeaders : List (String × String) :=
  [("Access-Control-Allow-Origin", "*"),
   ("Access-Control-Allow-Methods", "GET, POST, OPTIONS"),
   ("Access-Control-Allow-Headers", "Content-Type")]

/-- `GeolocationTestHandler.end_headers`: queues the three CORS header
fields after whatever fields the response path already queued, then
delegates to the base `end_headers`, which closes the header block.
Result: the full header list of the response. -/
def GeolocationTestHandler.end_headers (sent : List (String × String)) :
    List (String × String) :=
  sent ++ corsHeaders

/-- `GeolocationTestHandler.serve_test_interface`: read the local file
`geolocation-test-server.html` from the filesystem `fs`; on success send
200 with `Content-Type: text/html` and the file contents; on
`FileNotFoundError` fall back to `self.send_error(404, ...)`. -/
def GeolocationTestHandler.serve_test_interface (fs : String → Option String) :
    Response :=
  match fs ("geolocation-test-server.html") with
  | some content =>
    { status := 200
      headers := GeolocationTestHandler.end_headers
        [("Content-Type", "text/html"),
         ("Content-Length", toString content.length)]
      body := Body.text content }
  | none =>
    -- BaseHTTPRequestHandler.send_error(404, 'Test interface not found'):
    -- platform code; sends the status, an HTML content type and a
    -- Connection field, closes headers through the overridden
    -- end_headers, and writes an HTML error page body.
    { status := 404
      headers := GeolocationTestHandler.end_headers
        [("Content-Type", "text/html;charset=utf-8"),
         ("Connection", "close")]
      body := Body.text ("Test interface not found") }

/-- `GeolocationTestHandler.send_json_response`: 200 with
`Content-Type: application/json`, an explicit CORS origin field, a
`Content-Length` of the serialised document, and the document as body.
`dumps` stands for `json.dumps` with two-space indentation. -/
def GeolocationTestHandler.send_json_response (dumps : Json → String)
    (data : Json) : Response :=
  { status := 200
    headers := GeolocationTestHandler.end_headers
      [("Content-Type", "application/json"),
       ("Access-Control-Allow-Origin", "*"),
       ("Content-Length", toString (dumps data).length)]
    body := Body.json data }

/-- `GeolocationTestHandler.send_error_response`: 400 with
`Content-Type: application/json` and body the object with the single
`error` field. -/
def GeolocationTestHandler.send_error_response (message : String) : Response :=
  { status := 400
    headers := GeolocationTestHandler.end_headers
      [("Content-Type", "application/json"),
       ("Access-Control-Allow-Origin", "*")]
    body := Body.json (Json.obj [("error", Json.str message)]) }

/-- The fixed mock weather payload of `serve_mock_weather`; `nowIso` is
`datetime.now().isoformat()`. -/
def weather_data (nowIso : String) : Json :=
  Json.obj
    [("temperature", Json.num (72.5 : Rat)),
     ("temperatureCelsius", Json.num (22.5 : Rat)),
     ("condition", Json.str ("Clear")),
     ("description", Json.str ("Clear sky with light breeze")),
     ("humidity", Json.num (65 : Rat)),
     ("windSpeed", Json.num (8.5 : Rat)),
     ("windDirection", Json.str ("NW")),
     ("pressure", Json.num (1013 : Rat)),
     ("visibility", Json.num (10 : Rat)),
     ("feelsLike", Json.num (70.2 : Rat)),
     ("uvIndex", Json.num (5 : Rat)),
     ("sunrise", Json.str ("06:45")),
     ("sunset", Json.str ("19:30")),
     ("timestamp", Json.str nowIso)]

/-- `GeolocationTestHandler.serve_mock_weather`. -/
def GeolocationTestHandler.serve_mock_weather (dumps : Json → String)
    (nowIso : String) : Response :=
  GeolocationTestHandler.send_json_response dumps (weather_data nowIso)

/-- The fixed mock location payload of `serve_mock_location`. -/
def location_data (nowIso : String) : Json :=
  Json.obj
    [("verified", Json.bool true),
     ("address", Json.str ("1234 Farm Road, Ames, IA 50011")),
     ("locationType", Json.str ("Agricultural Facility")),
     ("nearbyLandmarks", Json.arr
        [Json.str ("Iowa State University Farm"),
         Json.str ("Agricultural Research Station"),
         Json.str ("FFA Training Center")]),
     ("timestamp", Json.str nowIso)]

/-- `GeolocationTestHandler.serve_mock_location`. -/
def GeolocationTestHandler.serve_mock_location (dumps : Json → String)
    (nowIso : String) : Response :=
  GeolocationTestHandler.send_json_response dumps (location_data nowIso)

/-- The fixed mock status payload of `serve_journal_status`. -/
def journal_status (nowIso : String) : Json :=
  Json.obj
    [("system", Json.str ("operational")),
     ("database", Json.str ("connected")),
     ("n8n", Json.str ("ready")),
     ("supabase", Json.str ("connected")),
     ("entriesCount", Json.num (42 : Rat)),
     ("lastEntry", Json.str nowIso)]

/-- `GeolocationTestHandler.serve_journal_status`. -/
def GeolocationTestHandler.serve_journal_status (dumps : Json → String)
    (nowIso : String) : Response :=
  GeolocationTestHandler.send_json_response dumps (journal_status nowIso)

/-- Result of a handler invocation: a response written to the socket,
no bytes written at all, or an uncaught Python exception. -/
inductive HandlerResult where
  | response (r : Response) : HandlerResult
  | noResponse : HandlerResult
  | exn (e : PyExn) : HandlerResult

/-- The call `super().do_GET()`: generic static-file serving by the base
`SimpleHTTPRequestHandler` (from the current working directory, which
`start_server` set to the directory of the script).  `superGET` stands
for its outcome: the status, queued header fields and body of the
response the base machinery assembles, or `none` if it writes nothing.
A response the base class produces closes its header block through
the overridden `end_headers`, so its headers pass through
`GeolocationTestHandler.end_headers`. -/
def GeolocationTestHandler.super_do_GET
    (superGET : String → Option (Nat × List (String × String) × Body))
    (rawPath : String) : HandlerResult :=
  match superGET rawPath with
  | some (st, hs, b) =>
    .response { status := st
                headers := GeolocationTestHandler.end_headers hs
                body := b }
  | none => .noResponse

/-- `GeolocationTestHandler.do_GET`: dispatch on the path component of
the request target; any unmatched path falls through to
`super().do_GET()`. -/
def GeolocationTestHandler.do_GET (fs : String → Option String)
    (dumps : Json → String) (nowIso : String)
    (superGET : String → Option (Nat × List (String × String) × Body))
    (rawPath : String) : HandlerResult :=
  let p := urlparsePath rawPath
  if p = "/" ∨ p = "/test" then
    .response (GeolocationTestHandler.serve_test_interface fs)
  else if p = "/api/weather" then
    .response (GeolocationTestHandler.serve_mock_weather dumps nowIso)
  else if p = "/api/location" then
    .response (GeolocationTestHandler.serve_mock_location dumps nowIso)
  else if p = "/api/journal" then
    .response (GeolocationTestHandler.serve_journal_status dumps nowIso)
  else
    GeolocationTestHandler.super_do_GET superGET rawPath

/-- `GeolocationTestHandler.do_POST`: only `/api/journal/create` is
recognised (compared against the raw `self.path`, query string
included).  `loads` stands for `json.loads`, returning `none` exactly
when it raises `json.JSONDecodeError`; `nowTs` is
`int(datetime.now().timestamp())`.  The `try` block only catches
`json.JSONDecodeError`, so failures of the `Content-Length` conversion
and of the UTF-8 decode escape as exceptions. -/
def GeolocationTestHandler.do_POST (loads : String → Option Json)
    (dumps : Json → String) (nowTs : Nat) (rawPath : String)
    (contentLengthHeader : Option String) (bodyStream : List Nat) :
    HandlerResult :=
  if rawPath = "/api/journal/create" then
    match pyIntOfHeader contentLengthHeader with
    | .error e => .exn e
    | .ok content_length =>
      let post_data := rfileRead content_length bodyStream
      match pyDecodeUtf8 post_data with
      | none => .exn .unicodeDecodeError
      | some s =>
        match loads s with
        | some journal_data =>
          .response (GeolocationTestHandler.send_json_response dumps
            (Json.obj
              [("success", Json.bool true),
               ("id", Json.str ("journal_" ++ toString nowTs)),
               ("message", Json.str ("Journal entry created successfully")),
               ("data", journal_data)]))
        | none =>
          .response (GeolocationTestHandler.send_error_response
            ("Invalid JSON data"))
  else
    .noResponse

/-- A POST request as the handler sees it: raw target path, the
`Content-Length` header field if present, and the body byte stream. -/
structure PostRequest where
  rawPath : String
  contentLengthHeader : Option String
  bodyStream : List Nat

/-- The serving loop restricted to POST requests: each request is handled
independently of every other (no state flows between iterations). -/
def GeolocationTestHandler.handlePosts (loads : String → Option Json)
    (dumps : Json → String) (nowTs : Nat) (reqs : List PostRequest) :
    List HandlerResult :=
  reqs.map (fun rq =>
    GeolocationTestHandler.do_POST loads dumps nowTs rq.rawPath
      rq.contentLengthHeader rq.bodyStream)

/-- Observable outcome of `start_server`: the host/port the server binds
and then serves forever on. -/
structure ApiServing where
  host : String
  port : Nat
  deriving DecidableEq

/-- `start_server`: prints the banner, changes directory to the script
directory, binds the TCP listener on localhost 8888, calls
`webbrowser.open` on the root URL — whose boolean result
(`False` when no browser could be opened) is discarded — and then
serves forever.  `browserOpened` is that discarded result. -/
def start_server (browserOpened : Bool) : ApiServing :=
  let _ := browserOpened
  { host := "localhost", port := 8888 }

/-! ## Static web server: serve-web.py -/

/-- The three no-cache header fields added by
`FlutterWebHandler.end_headers`. -/
def noCacheHeaders : List (String × String) :=
  [("Cache-Control", "no-cache, no-store, must-revalidate"),
   ("Pragma", "no-cache"),
   ("Expires", "0")]

/-- `FlutterWebHandler.end_headers`: queues the three no-cache header
fields after whatever fields the response path already queued, then
delegates to the base `end_headers`, which closes the header block. -/
def FlutterWebHandler.end_headers (sent : List (String × String)) :
    List (String × String) :=
  sent ++ noCacheHeaders

/-- Python tuple unpacking `a, b = s` where `s` is a string: iterates the
string, so it succeeds exactly when the string has two characters and
raises `ValueError` otherwise. -/
def unpack2OfString (s : String) : Except PyExn (Char × Char) :=
  match s.toList with
  | [a, b] => .ok (a, b)
  | _ => .error .valueError

/-- `FlutterWebHandler.guess_type`.  `superResult` is the value of
`super().guess_type(path)`; `SimpleHTTPRequestHandler.guess_type`
(platform code) returns a single MIME-type string such as
`text/html` or `application/octet-stream`, never a tuple.  The first
statement, `mime_type, _ = super().guess_type(path)`, therefore
unpacks that string: it raises `ValueError` unless the string happens
to have exactly two characters, in which case `mime_type` becomes the
one-character string holding its first character. -/
def FlutterWebHandler.guess_type (superResult : String) (path : String) :
    Except PyExn String :=
  match unpack2OfString superResult with
  | .error e => .error e
  | .ok (c, _) =>
    if path.endsWith (".js") then .ok ("application/javascript")
    else if path.endsWith (".wasm") then .ok ("application/wasm")
    else if path.endsWith (".json") then .ok ("application/json")
    else .ok (String.mk [c])

/-- The response paths of the base `SimpleHTTPRequestHandler` machinery
that `FlutterWebHandler` inherits: a successful file response, a 404
via `send_error`, a directory redirect, and a directory listing.  Each
closes its header block through the subclass `end_headers`. -/
inductive StaticServe where
  | okFile (ctype : String) (contents : String) (lastModified : String) :
      StaticServe
  | notFound : StaticServe
  | movedPermanently (location : String) : StaticServe
  | dirListing (listing : String) : StaticServe

/-- The response the static web server writes for each base-handler
path, with the header block closed by `FlutterWebHandler.end_headers`
(platform header fields as sent by `SimpleHTTPRequestHandler.send_head`,
`send_error` and `list_directory`). -/
def FlutterWebHandler.respond : StaticServe → Response
  | .okFile ctype contents lastModified =>
    { status := 200
      headers := FlutterWebHandler.end_headers
        [("Content-type", ctype),
         ("Content-Length", toString contents.length),
         ("Last-Modified", lastModified)]
      body := Body.text contents }
  | .notFound =>
    { status := 404
      headers := FlutterWebHandler.end_headers
        [("Content-Type", "text/html;charset=utf-8"),
         ("Connection", "close")]
      body := Body.text ("File not found") }
  | .movedPermanently location =>
    { status := 301
      headers := FlutterWebHandler.end_headers
        [("Location", location),
         ("Content-Length", "0")]
      body := Body.text ("") }
  | .dirListing listing =>
    { status := 200
      headers := FlutterWebHandler.end_headers
        [("Content-type", "text/html; charset=utf-8"),
         ("Content-Length", toString listing.length)]
      body := Body.text listing }

/-- Observable outcome of `serve_flutter_web`: either the process exits
with a code after printing diagnostics (no socket was bound), or it
binds the port and serves forever. -/
inductive WebStart where
  | exited (code : Nat) (printed : List String) : WebStart
  | serving (port : Nat) (printed : List String) : WebStart

/-- `serve_flutter_web`: compute `web_dir` as `build/web` under the
script directory; if it does not exist, print the two diagnostics and
`sys.exit(1)` before any socket is created; otherwise change into it,
bind port 8087 and serve forever.  `scriptDir` is
`os.path.dirname(__file__)` and `webDirExists` is
`os.path.exists(web_dir)`. -/
def serve_flutter_web (scriptDir : String) (webDirExists : Bool) : WebStart :=
  let web_dir := scriptDir ++ "/build/web"
  if webDirExists then
    .serving 8087
      ["Serving from: " ++ web_dir,
       "🚀 Flutter web app serving at http://localhost:8087",
       "Press Ctrl+C to stop the server"]
  else
    .exited 1
      ["ERROR: Web build directory not found: " ++ web_dir,
       "Please run \x27flutter build web\x27 first"]

/-! ## Auxiliary predicates and concrete instantiations -/

/-- A response carries the three CORS header fields, and its header list
was closed by the shared `GeolocationTestHandler.end_headers` hook (the
CORS block is its final segment). -/
def CarriesCors (r : Response) : Prop :=
  ("Access-Control-Allow-Origin", "*") ∈ r.headers ∧
  ("Access-Control-Allow-Methods", "GET, POST, OPTIONS") ∈ r.headers ∧
  ("Access-Control-Allow-Headers", "Content-Type") ∈ r.headers ∧
  ∃ earlier, r.headers = earlier ++ corsHeaders

/-- A `json.loads` stand-in that parses every document to `null`. -/
def loadsConstNull : String → Option Json := fun _ => some Json.null

/-- A `json.loads` stand-in that rejects every document
(`json.JSONDecodeError` on all inputs). -/
def loadsAlwaysFail : String → Option Json := fun _ => none

/-- A `json.dumps` stand-in serialising everything to the empty string. -/
def dumpsConstEmpty : Json → String := fun _ => ""

/-- An empty filesystem: every `open` raises `FileNotFoundError`. -/
def fsEmpty : String → Option String := fun _ => none

/-- A base static-file handler that writes no response. -/
def superNone : String → Option (Nat × List (String × String) × Body) :=
  fun _ => none

/-! ## General lemmas about the embedding -/

theorem rfileRead_length (bs : List Nat) :
    rfileRead (bs.length : Int) bs = bs := by
  unfold rfileRead
  rw [if_neg (by exact not_lt.mpr (Int.natCast_nonneg _))]
  simp

theorem carriesCors_of_end_headers (r : Response)
    (hs : List (String × String))
    (h : r.headers = GeolocationTestHandler.end_headers hs) :
    CarriesCors r := by
  unfold CarriesCors
  rw [h]
  unfold GeolocationTestHandler.end_headers corsHeaders
  refine ⟨?_, ?_, ?_, hs, rfl⟩ <;> simp

/-! ## Claim theorems -/

/-- C1: for every POST to `/api/journal/create` whose body is exactly
`Content-Length` bytes of valid JSON (the bytes decode as UTF-8 to a
document `json.loads` accepts), the handler responds 200 with a JSON
object containing `success: true`, an `id` string that is the
concatenation of the fixed `journal_` string and the current Unix
timestamp, the fixed confirmation message, and the parsed body echoed
verbatim under the `data` key. -/
theorem C1_journal_create_success (loads : String → Option Json)
    (dumps : Json → String) (nowTs : Nat) (clh : String)
    (bodyStream : List Nat) (s : String) (j : Json)
    (hcl : pyInt clh = some (bodyStream.length : Int))
    (hdec : pyDecodeUtf8 bodyStream = some s)
    (hparse : loads s = some j) :
    GeolocationTestHandler.do_POST loads dumps nowTs ("/api/journal/create")
      (some clh) bodyStream =
    HandlerResult.response
      { status := 200
        headers := GeolocationTestHandler.end_headers
          [("Content-Type", "application/json"),
           ("Access-Control-Allow-Origin", "*"),
           ("Content-Length", toString (dumps (Json.obj
              [("success", Json.bool true),
               ("id", Json.str ("journal_" ++ toString nowTs)),
               ("message", Json.str ("Journal entry created successfully")),
               ("data", j)])).length)]
        body := Body.json (Json.obj
          [("success", Json.bool true),
           ("id", Json.str ("journal_" ++ toString nowTs)),
           ("message", Json.str ("Journal entry created successfully")),
           ("data", j)]) } := by
  unfold GeolocationTestHandler.do_POST
  rw [if_pos rfl]
  unfold pyIntOfHeader
  simp only [hcl, rfileRead_length, hdec, hparse]
  rfl

/-- C1 witness: concrete instance with an empty body, `Content-Length: 0`
and a parse producing `null`, at timestamp 7. -/
theorem C1_journal_create_success_witness :
    GeolocationTestHandler.do_POST loadsConstNull dumpsConstEmpty 7
      ("/api/journal/create") (some ("0")) [] =
    HandlerResult.response
      { status := 200
        headers := GeolocationTestHandler.end_headers
          [("Content-Type", "application/json"),
           ("Access-Control-Allow-Origin", "*"),
           ("Content-Length", "0")]
        body := Body.json (Json.obj
          [("success", Json.bool true),
           ("id", Json.str ("journal_7")),
           ("message", Json.str ("Journal entry created successfully")),
           ("data", Json.null)]) } := by
  have h := C1_journal_create_success loadsConstNull dumpsConstEmpty 7
    ("0") [] "" Json.null (by decide) (by decide) rfl
  exact h

/-- C2: for every POST to `/api/journal/create` whose body decodes but
fails to parse as JSON (`json.loads` raises `json.JSONDecodeError`), the
handler responds 400 with a JSON object containing an `error` key; the
handler is a pure function of the single request (no partial processing,
no state), and the serving loop handles every subsequent request exactly
as it would have without this one. -/
theorem C2_journal_create_parse_failure (loads : String → Option Json)
    (dumps : Json → String) (nowTs : Nat) (clh : String)
    (bodyStream : List Nat) (s : String)
    (hcl : pyInt clh = some (bodyStream.length : Int))
    (hdec : pyDecodeUtf8 bodyStream = some s)
    (hparse : loads s = none) :
    GeolocationTestHandler.do_POST loads dumps nowTs ("/api/journal/create")
        (some clh) bodyStream =
      HandlerResult.response
        (GeolocationTestHandler.send_error_response ("Invalid JSON data")) ∧
    (GeolocationTestHandler.send_error_response ("Invalid JSON data")).status
        = 400 ∧
    (GeolocationTestHandler.send_error_response ("Invalid JSON data")).body
        = Body.json (Json.obj [("error", Json.str ("Invalid JSON data"))]) ∧
    ∀ rest, GeolocationTestHandler.handlePosts loads dumps nowTs
        ({ rawPath := "/api/journal/create"
           contentLengthHeader := some clh
           bodyStream := bodyStream } :: rest) =
      GeolocationTestHandler.do_POST loads dumps nowTs ("/api/journal/create")
          (some clh) bodyStream ::
        GeolocationTestHandler.handlePosts loads dumps nowTs rest := by
  refine ⟨?_, rfl, rfl, fun rest => rfl⟩
  unfold GeolocationTestHandler.do_POST
  rw [if_pos rfl]
  unfold pyIntOfHeader
  simp only [hcl, rfileRead_length, hdec, hparse]

/-- C2 witness: concrete instance with an empty body, `Content-Length: 0`
and a parser rejecting every document. -/
theorem C2_journal_create_parse_failure_witness :
    GeolocationTestHandler.do_POST loadsAlwaysFail dumpsConstEmpty 7
        ("/api/journal/create") (some ("0")) [] =
      HandlerResult.response
        (GeolocationTestHandler.send_error_response ("Invalid JSON data")) :=
  (C2_journal_create_parse_failure loadsAlwaysFail dumpsConstEmpty 7
    ("0") [] "" (by decide) (by decide) rfl).1

/-- C9: for every POST whose raw target is not exactly
`/api/journal/create` (the comparison is against `self.path`, so even a
query-string variant differs), `do_POST` falls through its single `if`
with no `else` and writes nothing: no status line, no headers, no body,
in particular no 404 or 405. -/
theorem C9_post_other_path_no_response (loads : String → Option Json)
    (dumps : Json → String) (nowTs : Nat) (rawPath : String)
    (clh : Option String) (bodyStream : List Nat)
    (h : rawPath ≠ "/api/journal/create") :
    GeolocationTestHandler.do_POST loads dumps nowTs rawPath clh bodyStream =
      HandlerResult.noResponse := by
  unfold GeolocationTestHandler.do_POST
  rw [if_neg h]

/-- C9 witness: a POST to `/api/weather` gets no reply at all. -/
theorem C9_post_other_path_no_response_witness :
    GeolocationTestHandler.do_POST loadsConstNull dumpsConstEmpty 7
        ("/api/weather") none [] =
      HandlerResult.noResponse :=
  C9_post_other_path_no_response loadsConstNull dumpsConstEmpty 7
    ("/api/weather") none [] (by decide)

/-- C10: for every POST to `/api/journal/create` with a missing
`Content-Length` header, a non-integer `Content-Length` value, or a body
that is not decodable as UTF-8, the handler raises an uncaught exception
(`TypeError`, `ValueError`, `UnicodeDecodeError` respectively — none of
which the `except json.JSONDecodeError` branch catches), so no response,
in particular no 400, is written; and an exception outcome is never a
response outcome. -/
theorem C10_post_uncaught_exceptions (loads : String → Option Json)
    (dumps : Json → String) (nowTs : Nat) (clh : Option String)
    (bodyStream : List Nat) :
    (clh = none →
      GeolocationTestHandler.do_POST loads dumps nowTs ("/api/journal/create")
        clh bodyStream = HandlerResult.exn PyExn.typeError) ∧
    (∀ s, clh = some s → pyInt s = none →
      GeolocationTestHandler.do_POST loads dumps nowTs ("/api/journal/create")
        clh bodyStream = HandlerResult.exn PyExn.valueError) ∧
    (∀ n, pyIntOfHeader clh = Except.ok n →
      pyDecodeUtf8 (rfileRead n bodyStream) = none →
      GeolocationTestHandler.do_POST loads dumps nowTs ("/api/journal/create")
        clh bodyStream = HandlerResult.exn PyExn.unicodeDecodeError) ∧
    (∀ (e : PyExn) (r : Response),
      HandlerResult.exn e ≠ HandlerResult.response r) := by
  refine ⟨?_, ?_, ?_, fun e r h => by cases h⟩
  · intro h
    subst h
    rfl
  · intro s hs hint
    subst hs
    unfold GeolocationTestHandler.do_POST
    rw [if_pos rfl]
    unfold pyIntOfHeader
    simp only [hint]
  · intro n hn hdec
    unfold GeolocationTestHandler.do_POST
    rw [if_pos rfl, hn]
    simp only [hdec]

/-- C10 witness: concrete instances of all three exception families —
missing header, header value `abc`, body byte `0xFF` with header `1`. -/
theorem C10_post_uncaught_exceptions_witness :
    GeolocationTestHandler.do_POST loadsConstNull dumpsConstEmpty 7
        ("/api/journal/create") none [] = HandlerResult.exn PyExn.typeError ∧
    GeolocationTestHandler.do_POST loadsConstNull dumpsConstEmpty 7
        ("/api/journal/create") (some ("abc")) [] =
      HandlerResult.exn PyExn.valueError ∧
    GeolocationTestHandler.do_POST loadsConstNull dumpsConstEmpty 7
        ("/api/journal/create") (some ("1")) [255] =
      HandlerResult.exn PyExn.unicodeDecodeError :=
  ⟨(C10_post_uncaught_exceptions loadsConstNull dumpsConstEmpty 7 none []).1
      rfl,
   (C10_post_uncaught_exceptions loadsConstNull dumpsConstEmpty 7
      (some ("abc")) []).2.1 ("abc") rfl (by decide),
   (C10_post_uncaught_exceptions loadsConstNull dumpsConstEmpty 7
      (some ("1")) [255]).2.2.1 1 rfl (by decide)⟩

theorem carriesCors_serve_test_interface (fs : String → Option String) :
    CarriesCors (GeolocationTestHandler.serve_test_interface fs) := by
  unfold GeolocationTestHandler.serve_test_interface
  rcases fs ("geolocation-test-server.html") with _ | c
  · exact carriesCors_of_end_headers _ _ rfl
  · exact carriesCors_of_end_headers _ _ rfl

/-- C3: GET dispatch goes by exact match on the path component of the
request target, in the source order: `/` or `/test` serve the local HTML
file as `text/html` (404 when the file is missing), `/api/weather`,
`/api/location` and `/api/journal` emit their fixed mock payloads, and
every other path falls through to the base static-file handler (which
serves from the directory `start_server` changed into — the script's own
directory). -/
theorem C3_get_dispatch (fs : String → Option String)
    (dumps : Json → String) (nowIso : String)
    (superGET : String → Option (Nat × List (String × String) × Body))
    (rawPath : String) :
    ((urlparsePath rawPath = "/" ∨ urlparsePath rawPath = "/test") →
      GeolocationTestHandler.do_GET fs dumps nowIso superGET rawPath =
        HandlerResult.response
          (GeolocationTestHandler.serve_test_interface fs) ∧
      ∀ c, fs ("geolocation-test-server.html") = some c →
        GeolocationTestHandler.serve_test_interface fs =
          { status := 200
            headers := GeolocationTestHandler.end_headers
              [("Content-Type", "text/html"),
               ("Content-Length", toString c.length)]
            body := Body.text c }) ∧
    (urlparsePath rawPath = "/api/weather" →
      GeolocationTestHandler.do_GET fs dumps nowIso superGET rawPath =
        HandlerResult.response
          (GeolocationTestHandler.serve_mock_weather dumps nowIso)) ∧
    (urlparsePath rawPath = "/api/location" →
      GeolocationTestHandler.do_GET fs dumps nowIso superGET rawPath =
        HandlerResult.response
          (GeolocationTestHandler.serve_mock_location dumps nowIso)) ∧
    (urlparsePath rawPath = "/api/journal" →
      GeolocationTestHandler.do_GET fs dumps nowIso superGET rawPath =
        HandlerResult.response
          (GeolocationTestHandler.serve_journal_status dumps nowIso)) ∧
    (urlparsePath rawPath ≠ "/" → urlparsePath rawPath ≠ "/test" →
     urlparsePath rawPath ≠ "/api/weather" →
     urlparsePath rawPath ≠ "/api/location" →
     urlparsePath rawPath ≠ "/api/journal" →
      (∀ st hs b, superGET rawPath = some (st, hs, b) →
        GeolocationTestHandler.do_GET fs dumps nowIso superGET rawPath =
          HandlerResult.response
            { status := st
              headers := GeolocationTestHandler.end_headers hs
              body := b }) ∧
      (superGET rawPath = none →
        GeolocationTestHandler.do_GET fs dumps nowIso superGET rawPath =
          HandlerResult.noResponse)) := by
  refine ⟨?_, ?_, ?_, ?_, ?_⟩
  · intro hp
    constructor
    · unfold GeolocationTestHandler.do_GET
      rw [if_pos hp]
    · intro c hc
      unfold GeolocationTestHandler.serve_test_interface
      rw [hc]
  · intro hp
    unfold GeolocationTestHandler.do_GET
    rw [if_neg (by rw [hp]; decide), if_pos hp]
  · intro hp
    unfold GeolocationTestHandler.do_GET
    rw [if_neg (by rw [hp]; decide), if_neg (by rw [hp]; decide), if_pos hp]
  · intro hp
    unfold GeolocationTestHandler.do_GET
    rw [if_neg (by rw [hp]; decide), if_neg (by rw [hp]; decide),
        if_neg (by rw [hp]; decide), if_pos hp]
  · intro h1 h2 h3 h4 h5
    have hcascade :
        GeolocationTestHandler.do_GET fs dumps nowIso superGET rawPath =
          GeolocationTestHandler.super_do_GET superGET rawPath := by
      unfold GeolocationTestHandler.do_GET
      rw [if_neg (by simp [h1, h2]), if_neg h3, if_neg h4, if_neg h5]
    constructor
    · intro st hs b hsup
      rw [hcascade]
      unfold GeolocationTestHandler.super_do_GET
      rw [hsup]
    · intro hsup
      rw [hcascade]
      unfold GeolocationTestHandler.super_do_GET
      rw [hsup]

/-- C3 witness: a GET for `/api/weather` (against the empty filesystem
and a base handler writing nothing) is dispatched to the mock weather
responder. -/
theorem C3_get_dispatch_witness :
    GeolocationTestHandler.do_GET fsEmpty dumpsConstEmpty "" superNone
        ("/api/weather") =
      HandlerResult.response
        (GeolocationTestHandler.serve_mock_weather dumpsConstEmpty "") :=
  (C3_get_dispatch fsEmpty dumpsConstEmpty "" superNone
    ("/api/weather")).2.1 (by decide)

/-- C4: every response the mock API server writes — the HTML test page,
its 404 fallback, the three mock JSON endpoints, the static-file
fallback on GET, and both the 200 and the 400 branch on POST — carries
the three CORS header fields, and carries them as the final segment
appended by the shared `end_headers` hook. -/
theorem C4_cors_on_every_response (fs : String → Option String)
    (dumps : Json → String) (nowIso : String)
    (superGET : String → Option (Nat × List (String × String) × Body))
    (loads : String → Option Json) (nowTs : Nat) :
    (∀ rawPath r,
      GeolocationTestHandler.do_GET fs dumps nowIso superGET rawPath =
        HandlerResult.response r → CarriesCors r) ∧
    (∀ rawPath clh bodyStream r,
      GeolocationTestHandler.do_POST loads dumps nowTs rawPath clh
        bodyStream = HandlerResult.response r → CarriesCors r) := by
  constructor
  · intro rawPath r h
    simp only [GeolocationTestHandler.do_GET] at h
    split at h
    · cases h
      exact carriesCors_serve_test_interface fs
    · split at h
      · cases h
        exact carriesCors_of_end_headers _ _ rfl
      · split at h
        · cases h
          exact carriesCors_of_end_headers _ _ rfl
        · split at h
          · cases h
            exact carriesCors_of_end_headers _ _ rfl
          · unfold GeolocationTestHandler.super_do_GET at h
            split at h
            · cases h
              exact carriesCors_of_end_headers _ _ rfl
            · cases h
  · intro rawPath clh bodyStream r h
    simp only [GeolocationTestHandler.do_POST] at h
    split at h
    · split at h
      · cases h
      · split at h
        · cases h
        · split at h
          · cases h
            exact carriesCors_of_end_headers _ _ rfl
          · cases h
            exact carriesCors_of_end_headers _ _ rfl
    · cases h

/-- C4 witness: the mock weather response of a GET for `/api/weather`
carries the CORS block. -/
theorem C4_cors_on_every_response_witness :
    CarriesCors (GeolocationTestHandler.serve_mock_weather dumpsConstEmpty
      ("2025-01-01T00:00:00")) :=
  (C4_cors_on_every_response fsEmpty dumpsConstEmpty ("2025-01-01T00:00:00")
      superNone loadsConstNull 7).1
    ("/api/weather")
    (GeolocationTestHandler.serve_mock_weather dumpsConstEmpty
      ("2025-01-01T00:00:00"))
    rfl

/-- C5: every response the static web server produces — successful file
responses, 404 responses via `send_error`, directory redirects and
directory listings — carries the three no-cache header fields
`Cache-Control: no-cache, no-store, must-revalidate`, `Pragma: no-cache`
and `Expires: 0` with exactly those literal values, appended by the
`end_headers` override after all other header fields are set. -/
theorem C5_nocache_on_every_response (s : StaticServe) :
    ("Cache-Control", "no-cache, no-store, must-revalidate")
        ∈ (FlutterWebHandler.respond s).headers ∧
    ("Pragma", "no-cache") ∈ (FlutterWebHandler.respond s).headers ∧
    ("Expires", "0") ∈ (FlutterWebHandler.respond s).headers ∧
    ∃ earlier, (FlutterWebHandler.respond s).headers =
      earlier ++ noCacheHeaders := by
  cases s <;>
    exact ⟨by simp [FlutterWebHandler.respond, FlutterWebHandler.end_headers,
                    noCacheHeaders],
           by simp [FlutterWebHandler.respond, FlutterWebHandler.end_headers,
                    noCacheHeaders],
           by simp [FlutterWebHandler.respond, FlutterWebHandler.end_headers,
                    noCacheHeaders],
           _, rfl⟩

/-- C6 (the claim fails): `FlutterWebHandler.guess_type` never returns a
MIME type.  Its first statement unpacks the string returned by
`SimpleHTTPRequestHandler.guess_type` into two targets, which raises
`ValueError` for every MIME-type string (none has exactly two
characters) — before any of the extension checks can run.  Here
`text/javascript` is what the base class returns for a `.js` path; the
claim expects `application/javascript`, but the call raises for every
path. -/
theorem C6_guess_type_raises_valueerror (path : String) :
    FlutterWebHandler.guess_type ("text/javascript") path =
      Except.error PyExn.valueError := rfl

/-- C7: if the asset directory `build/web` is missing at startup, the
static web server prints the diagnostic naming the directory and the
instruction to run the build step, exits with code 1 and never reaches
the branch that binds a socket; if the directory exists, it binds port
8087 and serves indefinitely. -/
theorem C7_startup_asset_directory_check (scriptDir : String)
    (webDirExists : Bool) :
    (webDirExists = false →
      serve_flutter_web scriptDir webDirExists =
        WebStart.exited 1
          ["ERROR: Web build directory not found: "
             ++ (scriptDir ++ "/build/web"),
           "Please run \x27flutter build web\x27 first"] ∧
      ∀ port printed,
        serve_flutter_web scriptDir webDirExists ≠
          WebStart.serving port printed) ∧
    (webDirExists = true →
      ∃ printed,
        serve_flutter_web scriptDir webDirExists =
          WebStart.serving 8087 printed) := by
  constructor
  · intro h
    subst h
    exact ⟨rfl, fun port printed hco => by cases hco⟩
  · intro h
    subst h
    exact ⟨_, rfl⟩

/-- C7 witness: with the asset directory absent, startup exits with code
1 and the two diagnostics; no serving outcome is produced. -/
theorem C7_startup_asset_directory_check_witness :
    serve_flutter_web (".") false =
      WebStart.exited 1
        ["ERROR: Web build directory not found: ./build/web",
         "Please run \x27flutter build web\x27 first"] :=
  (C7_startup_asset_directory_check (".") false).1 rfl |>.1

/-- C8: the browser launch at mock API server startup is best-effort:
`webbrowser.open` reports failure through its boolean result, which
`start_server` discards, so for every outcome of the attempt the server
reaches the same serving state on localhost 8888 and no failure
propagates as a startup error. -/
theorem C8_browser_launch_best_effort :
    (∀ browserOpened : Bool,
      start_server browserOpened = { host := "localhost", port := 8888 }) ∧
    ∀ o1 o2 : Bool, start_server o1 = start_server o2 :=
  ⟨fun _ => rfl, fun _ _ => rfl⟩
